import Mathlib

/-!
# Verification of `scratchattach/site/alert.py` (`EducatorAlert`)

A shallow embedding of the single-module JSON-to-record mapper in
`src/scratchattach/site/alert.py`, together with theorems settling the
spec's claims about it.

Embedding conventions:
* A decoded JSON value is the inductive `Json`; a Python `dict` produced by
  `json` decoding is a `JsonDict` (an association list, first binding wins,
  exactly like `dict.get` on a dict without duplicate keys).
* Python `None` appearing as a stored JSON value is `Json.null`; the result
  of `dict.get` on a missing key is `Option.none`.
* Exceptions raised by the Python code (`AttributeError` from calling
  `.get` on a non-dict, `TypeError` from `datetime.fromisoformat` on a
  non-string) are modelled by `Except.error`.
* `datetime.fromisoformat` on a string is modelled as succeeding and
  keeping the string verbatim (`Datetime.iso`); the claims only quantify
  over schema-conforming inputs whose timestamp fields are ISO-8601
  strings, so failure on a malformed string is never exercised.
* `json.loads(admin_action.get("extra_data", "{}"))` is modelled by
  storing the already-decoded value of the `extra_data` field in the input
  dict: an absent key defaults to the empty object, and the decoded value
  is required to be an object (the only shape the source then indexes).
* `warnings.warn(...)` is modelled as an explicit list of `Warning`
  diagnostics returned alongside the parsed record; the Python message
  text (which embeds a pretty-print of the raw payload) is abstracted to a
  tag carrying the datum that selected the warning branch.
-/

/-- A decoded JSON value (the result of Python `json.loads`). -/
inductive Json where
  | null
  | bool (b : Bool)
  | num (n : Int)
  | str (s : String)
  | arr (elems : List Json)
  | obj (entries : List (String × Json))
deriving Repr

/-- A decoded JSON object, i.e. a Python dict with string keys. -/
abbrev JsonDict := List (String × Json)

/-- Python `d.get(k)`: the value at the first binding of `k`, or `None`
(modelled as `Option.none`) when the key is missing. -/
def dictGet (d : JsonDict) (k : String) : Option Json :=
  match d with
  | [] => none
  | (k1, v) :: rest => if k1 = k then some v else dictGet rest k

/-- The Python exceptions the mapper can raise. -/
inductive PyErr where
  | attributeError
  | typeError
deriving Repr, DecidableEq

/-- Python attribute access `.get` demands a dict: calling it on `None` or
any non-dict value raises `AttributeError`. -/
def asDict : Option Json → Except PyErr JsonDict
  | some (Json.obj d) => Except.ok d
  | _ => Except.error PyErr.attributeError

/-- A parsed timestamp; `datetime.fromisoformat` output is modelled by the
ISO-8601 string it was parsed from. -/
structure Datetime where
  iso : String
deriving Repr, DecidableEq

/-- `datetime.fromisoformat(x)` where `x` came from `dict.get`: raises
`TypeError` unless `x` is a string (in particular on `None`, i.e. a missing
key or a JSON `null` value). -/
def fromisoformat : Option Json → Except PyErr Datetime
  | some (Json.str s) => Except.ok ⟨s⟩
  | _ => Except.error PyErr.typeError

/-- Python `x == k` for an `int` literal `k`, where `x` is a value obtained
from `dict.get`: `None` never equals an int, a JSON number compares
numerically, and a Python `bool` compares as `True == 1`, `False == 0`. -/
def pyEqInt : Option Json → Int → Bool
  | some (Json.num n), k => n == k
  | some (Json.bool b), k => (if b then (1 : Int) else 0) == k
  | _, _ => false

/-- The identifying fields of `user.User` that `from_json` populates. -/
structure User where
  username : Option Json
  id : Option Json
  icon_url : Option Json
  admin : Json

/-- The identifying fields of `project.Project` that `from_json` populates. -/
structure Project where
  id : Option Json
  title : Json

/-- The identifying fields of `studio.Studio` that `from_json` populates. -/
structure Studio where
  id : Option Json
  title : Json

/-- The identifying fields of `comment.Comment` that `from_json` populates. -/
structure Comment where
  id : Option Json
  content : Option Json
  source : String
  source_id : Option Json

/-- The polymorphic `target_object` of an alert: a Project, Studio or
Comment reference (the Python field holds one of these objects or `None`). -/
inductive TargetObject where
  | project (p : Project)
  | studio (s : Studio)
  | comment (c : Comment)

/-- The non-fatal diagnostics `from_json` can emit via `warnings.warn`. -/
inductive Warning where
  | unknownCommentType (comment_type : Option Json)
  | unknownExtraData
deriving Repr

/-- The `EducatorAlert` record, with the fields `from_json` populates. -/
structure EducatorAlert where
  model : Option Json
  type : Option Json
  raw : JsonDict
  id : Option Json
  time_read : Datetime
  time_created : Datetime
  target : User
  actor : User
  target_object : Option TargetObject
  notification_type : Option Json

/-- The classification over the decoded `extra_data` (source lines 97-155):
an ordered, first-match-wins chain over the keys `project_title`,
`comment_content`, `gallery_title`, `notification_type`, producing the
`target_object`, the `notification_type` field and the emitted warnings.
Indexing `extra_data["comment_content"]` and then calling `.get` on it
raises `AttributeError` when that value is not a dict. -/
def classifyExtra (extra_data : JsonDict) (object_id : Option Json)
    (_session : Unit) :
    Except PyErr (Option TargetObject × Option Json × List Warning) :=
  match dictGet extra_data "project_title" with
  | some title =>
      Except.ok (some (TargetObject.project ⟨object_id, title⟩), none, [])
  | none =>
    match dictGet extra_data "comment_content" with
    | some cc => do
        let comment_data ← asDict (some cc)
        let content := dictGet comment_data "content"
        let comment_obj_id := dictGet comment_data "comment_obj_id"
        let comment_type := dictGet comment_data "comment_type"
        let csw : String × List Warning :=
          if pyEqInt comment_type 0 then ("project", [])
          else if pyEqInt comment_type 1 then ("profile", [])
          else ("Unknown", [Warning.unknownCommentType comment_type])
        Except.ok
          (some (TargetObject.comment
            ⟨object_id, content, csw.1, comment_obj_id⟩), none, csw.2)
    | none =>
      match dictGet extra_data "gallery_title" with
      | some title =>
          Except.ok (some (TargetObject.studio ⟨object_id, title⟩), none, [])
      | none =>
        match dictGet extra_data "notification_type" with
        | some nt => Except.ok (none, some nt, [])
        | none => Except.ok (none, none, [Warning.unknownExtraData])

/-- `EducatorAlert.from_json` (source lines 53-169). Returns the parsed
record together with the list of emitted non-fatal diagnostics, or the
Python exception the source would raise. -/
def from_json (data : JsonDict) : Except PyErr (EducatorAlert × List Warning) := do
  let model := dictGet data "model"
  let alert_id := dictGet data "pk"
  let fields ← asDict (dictGet data "fields")
  let time_read ← fromisoformat (dictGet fields "educator_datetime_read")
  let admin_action ← asDict (dictGet fields "admin_action")
  let time_created ← fromisoformat (dictGet admin_action "datetime_created")
  let alert_type := dictGet admin_action "type"
  let target_data ← asDict (dictGet admin_action "target_user")
  let target : User :=
    ⟨dictGet target_data "username", dictGet target_data "pk",
     dictGet target_data "thumbnail_url",
     (dictGet target_data "admin").getD (Json.bool false)⟩
  let actor_data ← asDict (dictGet admin_action "actor")
  let actor : User :=
    ⟨dictGet actor_data "username", dictGet actor_data "pk",
     dictGet actor_data "thumbnail_url",
     (dictGet actor_data "admin").getD (Json.bool false)⟩
  let object_id := dictGet admin_action "object_id"
  let extra_data ←
    asDict (some ((dictGet admin_action "extra_data").getD (Json.obj [])))
  let cls ← classifyExtra extra_data object_id ()
  Except.ok
    ({ model := model, type := alert_type, raw := data, id := alert_id,
       time_read := time_read, time_created := time_created,
       target := target, actor := actor,
       target_object := cls.1, notification_type := cls.2.1 }, cls.2.2)

/-- Python `repr(x)` for a decoded JSON value (used by `str` on
containers): `None`, `True`/`False`, decimal integers, quoted strings, and
bracketed element lists for lists and dicts. -/
def reprJsonPy : Json → String
  | Json.null => "None"
  | Json.bool true => "True"
  | Json.bool false => "False"
  | Json.num n => toString n
  | Json.str s => "\x27" ++ s ++ "\x27"
  | Json.arr xs =>
      "[" ++ String.intercalate ", "
        (xs.attach.map (fun x => reprJsonPy x.1)) ++ "]"
  | Json.obj kvs =>
      "\x7b" ++ String.intercalate ", "
        (kvs.attach.map
          (fun e => "\x27" ++ e.1.1 ++ "\x27: " ++ reprJsonPy e.1.2))
        ++ "\x7d"
termination_by j => sizeOf j
decreasing_by
  · have h := List.sizeOf_lt_of_mem x.2
    simp_wf
    omega
  · have h := List.sizeOf_lt_of_mem e.2
    have h2 : sizeOf e.1.2 < sizeOf e.1 := by
      obtain ⟨⟨k, v⟩, hm⟩ := e
      simp
    simp_wf
    omega

/-- Python `str(x)` as applied by `str.format` to a substituted value:
strings verbatim, `None` for a missing value, `repr` otherwise. -/
def pythonStr : Option Json → String
  | none => "None"
  | some (Json.str s) => s
  | some j => reprJsonPy j

/-- One piece of a message template: literal text or a named placeholder
(what stands between braces in a Python format string). -/
inductive TemplatePart where
  | lit (s : String)
  | field (name : String)
deriving Repr, DecidableEq

/-- An entry of the external alert-type table: its message template.
Modelled from the spec: the `enums.AlertType` objects live outside this
repository; the spec reduces them to `{messageTemplate: string}`. -/
structure AlertType where
  message : List TemplatePart
deriving Repr, DecidableEq

/-- Modelled from the spec: the external table `enums.AlertTypes` mapping
integer alert-type codes to `AlertType` entries, "with a defined default
entry when `code` is unrecognized". -/
structure AlertTypeTable where
  entries : List (Int × AlertType)
  default : AlertType
deriving Repr, DecidableEq

/-- Modelled from the spec: `AlertTypeTable.lookup(code: int)`, the
`enums.AlertTypes.find` collaborator — the table entry at an integer code,
nothing for an unrecognized code (or a non-integer stored `type`). -/
def AlertTypes.find (tbl : AlertTypeTable) (code : Option Json) : Option AlertType :=
  match code with
  | some (Json.num n) => (tbl.entries.find? (fun e => e.1 == n)).map (fun e => e.2)
  | _ => none

/-- The `alert_type` property (source lines 174-183): look the alert's
`type` code up in the external table and fall back to the default entry
when nothing is found (`if not alert_type:` — the entries are enum member
objects, always truthy, so falsiness means `find` returned `None`). -/
def EducatorAlert.alert_type (tbl : AlertTypeTable) (a : EducatorAlert) : AlertType :=
  match AlertTypes.find tbl a.type with
  | some t => t
  | none => tbl.default

/-- The `target_object_title` property (source lines 201-210): the target
object's `title` for a Project or a Studio, and an explicit `None`
otherwise. `none` encodes that explicit Python `None` result. -/
def EducatorAlert.target_object_title (a : EducatorAlert) : Option Json :=
  match a.target_object with
  | some (TargetObject.project p) => some p.title
  | some (TargetObject.studio s) => some s.title
  | _ => none

/-- The `comment_content` local of the `message` property (source lines
191-193): the target comment's `content` when the target object is a
Comment, the empty string otherwise. -/
def EducatorAlert.commentContent (a : EducatorAlert) : Option Json :=
  match a.target_object with
  | some (TargetObject.comment c) => c.content
  | _ => some (Json.str "")

/-- The keyword-argument environment the `message` property passes to
`str.format` (source lines 195-199): `username`, `project`, `studio`,
`notification_type` and `comment`; any other placeholder name is missing
(Python would raise `KeyError`). -/
def EducatorAlert.messageEnv (a : EducatorAlert) : String → Option (Option Json) :=
  fun name =>
    if name = "username" then some a.target.username
    else if name = "project" then some a.target_object_title
    else if name = "studio" then some a.target_object_title
    else if name = "notification_type" then some a.notification_type
    else if name = "comment" then some a.commentContent
    else none

/-- Python `template.format(**env)`: substitute each named placeholder by
`str` of the value the environment binds it to; `none` when a placeholder
name is unbound (`KeyError`). -/
def formatTemplate : List TemplatePart → (String → Option (Option Json)) → Option String
  | [], _ => some ""
  | TemplatePart.lit s :: rest, env =>
      (formatTemplate rest env).map (fun t => s ++ t)
  | TemplatePart.field n :: rest, env =>
      match env n with
      | none => none
      | some v => (formatTemplate rest env).map (fun t => pythonStr v ++ t)

/-- The `message` property (source lines 185-199): render the alert type's
message template with the alert's substitution environment. -/
def EducatorAlert.message (tbl : AlertTypeTable) (a : EducatorAlert) : Option String :=
  formatTemplate (a.alert_type tbl).message a.messageEnv

/-! ## Concrete sample inputs (used by witnesses and counterexamples) -/

/-- A §6-conforming input whose `extra_data` decodes to
`{"project_title": "My Project"}`. -/
def sampleProjectInput : JsonDict :=
  [("model", Json.str "educators.educatoralert"),
   ("pk", Json.num 123),
   ("fields", Json.obj
     [("educator_datetime_read", Json.str "2024-01-02T03:04:05"),
      ("admin_action", Json.obj
        [("datetime_created", Json.str "2024-01-01T00:00:00"),
         ("type", Json.num 5),
         ("target_user", Json.obj
           [("username", Json.str "alice"), ("pk", Json.num 1),
            ("thumbnail_url", Json.str "t.png"), ("admin", Json.bool false)]),
         ("actor", Json.obj
           [("username", Json.str "bob"), ("pk", Json.num 2),
            ("thumbnail_url", Json.str "a.png"), ("admin", Json.bool true)]),
         ("object_id", Json.num 777),
         ("extra_data", Json.obj
           [("project_title", Json.str "My Project")])])])]

/-- The record `from_json` produces on `sampleProjectInput`. -/
def sampleProjectAlert : EducatorAlert :=
  { model := some (Json.str "educators.educatoralert")
    type := some (Json.num 5)
    raw := sampleProjectInput
    id := some (Json.num 123)
    time_read := ⟨"2024-01-02T03:04:05"⟩
    time_created := ⟨"2024-01-01T00:00:00"⟩
    target := ⟨some (Json.str "alice"), some (Json.num 1),
               some (Json.str "t.png"), Json.bool false⟩
    actor := ⟨some (Json.str "bob"), some (Json.num 2),
              some (Json.str "a.png"), Json.bool true⟩
    target_object := some (TargetObject.project
      ⟨some (Json.num 777), Json.str "My Project"⟩)
    notification_type := none }

example : from_json sampleProjectInput = Except.ok (sampleProjectAlert, []) := by rfl

/-- A §6-conforming input builder sharing `sampleProjectInput`'s user data:
`read_field` is the value of `educator_datetime_read` and `extra` the
decoded `extra_data` entry (absent when `none`). -/
def sampleInputWith (read_field : Json) (extra : Option Json) : JsonDict :=
  [("model", Json.str "educators.educatoralert"),
   ("pk", Json.num 123),
   ("fields", Json.obj
     [("educator_datetime_read", read_field),
      ("admin_action", Json.obj
        ([("datetime_created", Json.str "2024-01-01T00:00:00"),
          ("type", Json.num 5),
          ("target_user", Json.obj
            [("username", Json.str "alice"), ("pk", Json.num 1),
             ("thumbnail_url", Json.str "t.png"), ("admin", Json.bool false)]),
          ("actor", Json.obj
            [("username", Json.str "bob"), ("pk", Json.num 2),
             ("thumbnail_url", Json.str "a.png"), ("admin", Json.bool true)]),
          ("object_id", Json.num 777)]
         ++ (match extra with
             | some e => [("extra_data", e)]
             | none => [])))])]

/-- A conforming input whose `extra_data` decodes to a comment payload
with the unrecognized `comment_type` 99. -/
def sampleComment99Input : JsonDict :=
  sampleInputWith (Json.str "2024-01-02T03:04:05")
    (some (Json.obj [("comment_content", Json.obj
      [("content", Json.str "rude words"), ("comment_obj_id", Json.num 42),
       ("comment_type", Json.num 99)])]))

/-- A conforming input whose `extra_data` decodes to a comment payload
lacking the `comment_type` key entirely. -/
def sampleCommentNoTypeInput : JsonDict :=
  sampleInputWith (Json.str "2024-01-02T03:04:05")
    (some (Json.obj [("comment_content", Json.obj
      [("content", Json.str "rude words"), ("comment_obj_id", Json.num 42)])]))

/-- A conforming input with no `extra_data` key at all. -/
def sampleNoExtraInput : JsonDict :=
  sampleInputWith (Json.str "2024-01-02T03:04:05") none

/-- A conforming unread alert: `educator_datetime_read` is `null`. -/
def sampleUnreadInput : JsonDict :=
  sampleInputWith Json.null
    (some (Json.obj [("project_title", Json.str "My Project")]))

/-! ## Helper lemmas -/

/-- Any successful run of the classification chain leaves `target_object`
or `notification_type` (or both) unset. -/
theorem classifyExtra_not_both (ed : JsonDict) (oid : Option Json)
    (r : Option TargetObject × Option Json × List Warning)
    (h : classifyExtra ed oid () = Except.ok r) :
    r.1 = none ∨ r.2.1 = none := by
  unfold classifyExtra at h
  repeat' split at h
  all_goals try simp only [bind, Except.bind, asDict] at h
  all_goals try split at h
  all_goals cases h
  all_goals simp

/-- Inversion for a successful parse: the `raw` field is the input itself,
and the `target_object` / `notification_type` / warnings triple is a
successful run of the classification chain. -/
theorem from_json_ok_inv (data : JsonDict) (a : EducatorAlert) (ws : List Warning)
    (h : from_json data = Except.ok (a, ws)) :
    a.raw = data ∧ ∃ ed oid, classifyExtra ed oid () =
      Except.ok (a.target_object, a.notification_type, ws) := by
  unfold from_json at h
  simp only [bind, Except.bind] at h
  split at h
  · cases h
  next hfields =>
  split at h
  · cases h
  next htr =>
  split at h
  · cases h
  next hadmin =>
  split at h
  · cases h
  next htc =>
  split at h
  · cases h
  next htu =>
  split at h
  · cases h
  next hau =>
  split at h
  · cases h
  next hed =>
  split at h
  · cases h
  next cls hcls =>
  cases h
  exact ⟨rfl, _, _, by rw [hcls]⟩

/-! ## Claims -/

/-- C1: For every input conforming to the §6 schema whose decoded
`extra_data` contains the key `project_title` (regardless of which other
recognized keys are also present — matching is ordered and first-match
wins), `parse` returns an Alert whose `targetObject` is a Project with id
equal to `admin_action.object_id` and title equal to
`extra_data["project_title"]`, and whose `notificationType` is unset. -/
theorem claim_C1_project_title_classification
    (data flds admin tu au ed : JsonDict) (tr tc : String) (t : Json)
    (hf : dictGet data "fields" = some (Json.obj flds))
    (htr : dictGet flds "educator_datetime_read" = some (Json.str tr))
    (ha : dictGet flds "admin_action" = some (Json.obj admin))
    (htc : dictGet admin "datetime_created" = some (Json.str tc))
    (htu : dictGet admin "target_user" = some (Json.obj tu))
    (hau : dictGet admin "actor" = some (Json.obj au))
    (hed : dictGet admin "extra_data" = some (Json.obj ed))
    (hpt : dictGet ed "project_title" = some t) :
    ∃ a ws, from_json data = Except.ok (a, ws) ∧
      a.target_object = some (TargetObject.project
        ⟨dictGet admin "object_id", t⟩) ∧
      a.notification_type = none := by
  simp only [from_json, bind, Except.bind, hf, htr, ha, htc, htu, hau, hed,
    asDict, fromisoformat, Option.getD, classifyExtra, hpt]
  exact ⟨_, _, rfl, rfl, rfl⟩

/-- C1 witness: the theorem applied to `sampleProjectInput`. -/
theorem claim_C1_witness :
    ∃ a ws, from_json sampleProjectInput = Except.ok (a, ws) ∧
      a.target_object = some (TargetObject.project
        ⟨some (Json.num 777), Json.str "My Project"⟩) ∧
      a.notification_type = none :=
  claim_C1_project_title_classification sampleProjectInput _ _ _ _ _ _ _ _
    rfl rfl rfl rfl rfl rfl rfl rfl

/-- C2: For every input on which `parse` succeeds, at most one of
`targetObject` and `notificationType` is populated — never both. -/
theorem claim_C2_at_most_one_classification
    (data : JsonDict) (a : EducatorAlert) (ws : List Warning)
    (h : from_json data = Except.ok (a, ws)) :
    ¬(a.target_object.isSome ∧ a.notification_type.isSome) := by
  obtain ⟨-, ed, oid, hc⟩ := from_json_ok_inv data a ws h
  rcases classifyExtra_not_both ed oid _ hc with h1 | h1 <;>
    simp only [] at h1 <;> simp [h1]

/-- C2 witness: the theorem applied to the parse of `sampleProjectInput`. -/
theorem claim_C2_witness :
    ¬(sampleProjectAlert.target_object.isSome ∧
      sampleProjectAlert.notification_type.isSome) :=
  claim_C2_at_most_one_classification sampleProjectInput sampleProjectAlert []
    (by rfl)

/-- C6: For every input on which `parse` succeeds, the returned Alert's
`raw` field equals the exact input object passed to `parse`. -/
theorem claim_C6_raw_roundtrip
    (data : JsonDict) (a : EducatorAlert) (ws : List Warning)
    (h : from_json data = Except.ok (a, ws)) :
    a.raw = data :=
  (from_json_ok_inv data a ws h).1

/-- C6 witness: the theorem applied to the parse of `sampleProjectInput`. -/
theorem claim_C6_witness : sampleProjectAlert.raw = sampleProjectInput :=
  claim_C6_raw_roundtrip sampleProjectInput sampleProjectAlert [] (by rfl)

/-- C3: For every input whose `extra_data` contains `comment_content` and
none of the earlier-matching keys, the resolved comment source type is
`"project"` when `comment_type` is 0, `"profile"` when it is 1, and
`"Unknown"` for any other integer, in which last case exactly one
non-fatal diagnostic is emitted; a Comment target object is constructed in
all three cases. -/
theorem claim_C3_comment_type_resolution
    (data flds admin tu au ed cd : JsonDict) (tr tc : String)
    (hf : dictGet data "fields" = some (Json.obj flds))
    (htr : dictGet flds "educator_datetime_read" = some (Json.str tr))
    (ha : dictGet flds "admin_action" = some (Json.obj admin))
    (htc : dictGet admin "datetime_created" = some (Json.str tc))
    (htu : dictGet admin "target_user" = some (Json.obj tu))
    (hau : dictGet admin "actor" = some (Json.obj au))
    (hed : dictGet admin "extra_data" = some (Json.obj ed))
    (hpt : dictGet ed "project_title" = none)
    (hcc : dictGet ed "comment_content" = some (Json.obj cd)) :
    (dictGet cd "comment_type" = some (Json.num 0) →
      ∃ a, from_json data = Except.ok (a, []) ∧
        a.target_object = some (TargetObject.comment
          ⟨dictGet admin "object_id", dictGet cd "content", "project",
           dictGet cd "comment_obj_id"⟩)) ∧
    (dictGet cd "comment_type" = some (Json.num 1) →
      ∃ a, from_json data = Except.ok (a, []) ∧
        a.target_object = some (TargetObject.comment
          ⟨dictGet admin "object_id", dictGet cd "content", "profile",
           dictGet cd "comment_obj_id"⟩)) ∧
    (∀ n : Int, n ≠ 0 → n ≠ 1 →
      dictGet cd "comment_type" = some (Json.num n) →
      ∃ a, from_json data =
          Except.ok (a, [Warning.unknownCommentType (some (Json.num n))]) ∧
        a.target_object = some (TargetObject.comment
          ⟨dictGet admin "object_id", dictGet cd "content", "Unknown",
           dictGet cd "comment_obj_id"⟩)) := by
  refine ⟨fun hct => ?_, fun hct => ?_, fun n hn0 hn1 hct => ?_⟩
  · simp only [from_json, bind, Except.bind, hf, htr, ha, htc, htu, hau, hed,
      asDict, fromisoformat, Option.getD, classifyExtra, hpt, hcc, hct,
      pyEqInt, beq_iff_eq, reduceIte]
    exact ⟨_, rfl, rfl⟩
  · simp only [from_json, bind, Except.bind, hf, htr, ha, htc, htu, hau, hed,
      asDict, fromisoformat, Option.getD, classifyExtra, hpt, hcc, hct,
      pyEqInt, beq_iff_eq, reduceIte]
    exact ⟨_, rfl, rfl⟩
  · simp only [from_json, bind, Except.bind, hf, htr, ha, htc, htu, hau, hed,
      asDict, fromisoformat, Option.getD, classifyExtra, hpt, hcc, hct,
      pyEqInt, beq_iff_eq]
    rw [if_neg hn0, if_neg hn1]
    exact ⟨_, rfl, rfl⟩

/-- C3 witness: the unrecognized branch of the theorem applied to
`sampleComment99Input` (comment_type 99). -/
theorem claim_C3_witness :
    ∃ a, from_json sampleComment99Input =
        Except.ok (a, [Warning.unknownCommentType (some (Json.num 99))]) ∧
      a.target_object = some (TargetObject.comment
        ⟨some (Json.num 777), some (Json.str "rude words"), "Unknown",
         some (Json.num 42)⟩) :=
  (claim_C3_comment_type_resolution sampleComment99Input _ _ _ _ _ _ _ _
    rfl rfl rfl rfl rfl rfl rfl rfl rfl).2.2 99 (by decide) (by decide) rfl

/-- C10: For every input whose `extra_data` contains `comment_content` but
whose comment payload lacks the `comment_type` key entirely, `parse`
treats it like an unrecognized code: the source type is `"Unknown"`,
exactly one non-fatal diagnostic is emitted, and a Comment target object
is still constructed from the payload's `content` and `comment_obj_id`. -/
theorem claim_C10_missing_comment_type
    (data flds admin tu au ed cd : JsonDict) (tr tc : String)
    (hf : dictGet data "fields" = some (Json.obj flds))
    (htr : dictGet flds "educator_datetime_read" = some (Json.str tr))
    (ha : dictGet flds "admin_action" = some (Json.obj admin))
    (htc : dictGet admin "datetime_created" = some (Json.str tc))
    (htu : dictGet admin "target_user" = some (Json.obj tu))
    (hau : dictGet admin "actor" = some (Json.obj au))
    (hed : dictGet admin "extra_data" = some (Json.obj ed))
    (hpt : dictGet ed "project_title" = none)
    (hcc : dictGet ed "comment_content" = some (Json.obj cd))
    (hct : dictGet cd "comment_type" = none) :
    ∃ a, from_json data =
        Except.ok (a, [Warning.unknownCommentType none]) ∧
      a.target_object = some (TargetObject.comment
        ⟨dictGet admin "object_id", dictGet cd "content", "Unknown",
         dictGet cd "comment_obj_id"⟩) ∧
      a.notification_type = none := by
  simp only [from_json, bind, Except.bind, hf, htr, ha, htc, htu, hau, hed,
    asDict, fromisoformat, Option.getD, classifyExtra, hpt, hcc, hct, pyEqInt]
  exact ⟨_, rfl, rfl, rfl⟩

/-- C10 witness: the theorem applied to `sampleCommentNoTypeInput`. -/
theorem claim_C10_witness :
    ∃ a, from_json sampleCommentNoTypeInput =
        Except.ok (a, [Warning.unknownCommentType none]) ∧
      a.target_object = some (TargetObject.comment
        ⟨some (Json.num 777), some (Json.str "rude words"), "Unknown",
         some (Json.num 42)⟩) ∧
      a.notification_type = none :=
  claim_C10_missing_comment_type sampleCommentNoTypeInput _ _ _ _ _ _ _ _
    rfl rfl rfl rfl rfl rfl rfl rfl rfl rfl

/-- C5: For every input whose `admin_action` has no `extra_data` key, or
whose `extra_data` decodes to the empty object, `parse` returns an Alert
with both `targetObject` and `notificationType` unset, and exactly one
non-fatal diagnostic is emitted (parsing does not fail). -/
theorem claim_C5_empty_extra_data
    (data flds admin tu au : JsonDict) (tr tc : String)
    (hf : dictGet data "fields" = some (Json.obj flds))
    (htr : dictGet flds "educator_datetime_read" = some (Json.str tr))
    (ha : dictGet flds "admin_action" = some (Json.obj admin))
    (htc : dictGet admin "datetime_created" = some (Json.str tc))
    (htu : dictGet admin "target_user" = some (Json.obj tu))
    (hau : dictGet admin "actor" = some (Json.obj au))
    (hed : dictGet admin "extra_data" = none ∨
           dictGet admin "extra_data" = some (Json.obj [])) :
    ∃ a, from_json data = Except.ok (a, [Warning.unknownExtraData]) ∧
      a.target_object = none ∧ a.notification_type = none := by
  rcases hed with hed | hed <;>
    simp only [from_json, bind, Except.bind, hf, htr, ha, htc, htu, hau, hed,
      asDict, fromisoformat, Option.getD, classifyExtra, dictGet] <;>
    exact ⟨_, rfl, rfl, rfl⟩

/-- C5 witness: the theorem applied to `sampleNoExtraInput` (no
`extra_data` key). -/
theorem claim_C5_witness :
    ∃ a, from_json sampleNoExtraInput =
        Except.ok (a, [Warning.unknownExtraData]) ∧
      a.target_object = none ∧ a.notification_type = none :=
  claim_C5_empty_extra_data sampleNoExtraInput _ _ _ _ _ _
    rfl rfl rfl rfl rfl rfl (Or.inl rfl)

/-- C4: the claim says a conforming input with `educator_datetime_read`
null still parses, with `timeRead` unset. The code instead calls
`datetime.fromisoformat` on the `None` it read back, which raises
`TypeError`: on `sampleUnreadInput` (a conforming unread alert) the parse
fails. -/
theorem claim_C4_unread_alert_raises :
    from_json sampleUnreadInput = Except.error PyErr.typeError := by rfl

/-- C7: For every Alert, `renderMessage` substitutes the `project` and
`studio` placeholders with the same value, both equal to
`targetObjectTitle`, and substitutes the `comment` placeholder with the
comment's content when the target object is a Comment and with the empty
string otherwise. -/
theorem claim_C7_message_placeholder_bindings
    (tbl : AlertTypeTable) (a : EducatorAlert) :
    a.message tbl = formatTemplate (a.alert_type tbl).message a.messageEnv ∧
    a.messageEnv "project" = some a.target_object_title ∧
    a.messageEnv "studio" = some a.target_object_title ∧
    a.messageEnv "comment" = some a.commentContent ∧
    a.commentContent = (match a.target_object with
      | some (TargetObject.comment c) => c.content
      | _ => some (Json.str "")) := by
  exact ⟨rfl, by rfl, by rfl, by rfl, rfl⟩

/-- C8: For every Alert whose `alertTypeCode` is not present in the
external alert-type table, the message-template lookup used by
`renderMessage` returns the table's default entry. -/
theorem claim_C8_unrecognized_type_defaults
    (tbl : AlertTypeTable) (a : EducatorAlert) (n : Int)
    (hty : a.type = some (Json.num n))
    (hn : ∀ e ∈ tbl.entries, e.1 ≠ n) :
    a.alert_type tbl = tbl.default := by
  have hfind : tbl.entries.find? (fun e => e.1 == n) = none := by
    rw [List.find?_eq_none]
    intro e he
    simp [hn e he]
  simp [EducatorAlert.alert_type, AlertTypes.find, hty, hfind]

/-- A small concrete alert-type table: code 5 has a template, everything
else falls back to the default entry. -/
def sampleTable : AlertTypeTable :=
  ⟨[(5, ⟨[TemplatePart.field "username", TemplatePart.lit " was warned"]⟩)],
   ⟨[TemplatePart.lit "Unknown alert"]⟩⟩

/-- C8 witness: the theorem applied to `sampleTable` and an alert with the
unrecognized code 99. -/
theorem claim_C8_witness :
    EducatorAlert.alert_type sampleTable
      { sampleProjectAlert with type := some (Json.num 99) } =
      sampleTable.default :=
  claim_C8_unrecognized_type_defaults sampleTable _ 99 rfl (by decide)

/-- C9: For every Alert, `targetObjectTitle` returns the target object's
title when `targetObject` is a Project or a Studio, and returns an
explicit absent value in every other case, including when `targetObject`
is a Comment or unset. -/
theorem claim_C9_target_object_title_cases (a : EducatorAlert) :
    (∀ p, a.target_object = some (TargetObject.project p) →
      a.target_object_title = some p.title) ∧
    (∀ s, a.target_object = some (TargetObject.studio s) →
      a.target_object_title = some s.title) ∧
    (∀ c, a.target_object = some (TargetObject.comment c) →
      a.target_object_title = none) ∧
    (a.target_object = none → a.target_object_title = none) := by
  refine ⟨fun p h => ?_, fun s h => ?_, fun c h => ?_, fun h => ?_⟩ <;>
    simp [EducatorAlert.target_object_title, h]

/-- C9 witness: the Project case of the theorem applied to
`sampleProjectAlert`. -/
theorem claim_C9_witness :
    sampleProjectAlert.target_object_title = some (Json.str "My Project") :=
  (claim_C9_target_object_title_cases sampleProjectAlert).1
    ⟨some (Json.num 777), Json.str "My Project"⟩ rfl
